import Mathlib

/-!
Shallow embedding of the student gRPC service in `src/server/src/main.rs`.

The server state is a Rust `HashMap<String, Student>` behind an `RwLock`;
every RPC handler acquires the lock, performs a pure computation on the map,
and releases it.  We embed each handler as a pure Lean function from its
request and the current store to its response (an `Except Status`-value for
the typed gRPC failures) together with the store it leaves behind.

Modelling decisions, each noted again at its definition:
* Rust `f64` is embedded as `F64`: either NaN or an exact rational value.
  The code performs no arithmetic on `gpa`, only the IEEE comparisons `<`
  and `>`, which on non-NaN doubles coincide with the rational order on
  their exact values, and are `false` whenever either side is NaN.
* A Rust `HashMap`'s iteration order is unspecified.  The embedding fixes
  one admissible deterministic order — association-list order, with fresh
  keys appended — which is faithful to everything the code does: the code
  never sorts, and `values()` yields the map's internal order.
* `Vec` slicing `v[a..b]` panics when `a > b` or `b > v.len()`; `sliceChecked`
  returns `none` exactly there, so a `none` result of `list_students` models
  a Rust panic (no `Status` is ever produced by `list_students`).
* Rust `str::parse::<usize>` accepts an optional `+` sign followed by ASCII
  digits, and fails on the empty string, on any other character, and on
  overflow past `usize::MAX = 2^64 - 1`.
* `Uuid::new_v4().to_string()` is a fresh random identifier; the embedding
  passes the generated string to `create_student` as an explicit argument
  `freshId`.  Where a property needs it we hypothesise only what holds of
  every UUID string (it is non-blank).
-/

/-- Equality of results of the fallible operations is decidable (used to
evaluate the embedding on concrete inputs). -/
instance {ε α : Type} [DecidableEq ε] [DecidableEq α] : DecidableEq (Except ε α) := fun x y =>
  match x, y with
  | .ok a, .ok b =>
    if h : a = b then .isTrue (by rw [h]) else .isFalse (by intro hc; cases hc; exact h rfl)
  | .ok _, .error _ => .isFalse (by intro hc; cases hc)
  | .error _, .ok _ => .isFalse (by intro hc; cases hc)
  | .error e, .error f =>
    if h : e = f then .isTrue (by rw [h]) else .isFalse (by intro hc; cases hc; exact h rfl)

/-- Rust `s.trim().is_empty()`: a string is blank iff every character is
whitespace (true for the empty string).  Stated directly on the character
list so that it evaluates by kernel reduction. -/
def isBlank (s : String) : Bool := s.data.all Char.isWhitespace

/-- Embedding of Rust `f64` as used by the server: the code only compares
`gpa` with `<` and `>`, so a value is either NaN or carries an exact
rational magnitude. -/
inductive F64 where
  | nan : F64
  | val (q : ℚ) : F64
deriving DecidableEq, Repr

/-- IEEE `<` on doubles: `false` whenever either operand is NaN. -/
def F64.lt : F64 → F64 → Bool
  | .val a, .val b => a < b
  | _, _ => false

/-- IEEE `>` on doubles: `false` whenever either operand is NaN. -/
def F64.gt (a b : F64) : Bool := F64.lt b a

/-- IEEE `<=` on doubles: `false` whenever either operand is NaN.  Not used
by the server code itself; it states the invariant `0.0 <= gpa <= 4.0`. -/
def F64.le : F64 → F64 → Bool
  | .val a, .val b => a ≤ b
  | _, _ => false

/-- The `Student` protobuf message (`id`, `name`, `email`, `major`, `age: i32`,
`gpa: f64`).  `age` is embedded as `ℤ` (the code only compares it with the
in-range constants 0 and 150, so `i32` wrap-around never arises). -/
structure Student where
  id : String
  name : String
  email : String
  major : String
  age : ℤ
  gpa : F64
deriving DecidableEq, Repr

/-- Protobuf default value of `Student` (`unwrap_or_default`): empty strings,
`age = 0`, `gpa = 0.0`. -/
instance : Inhabited Student := ⟨⟨"", "", "", "", 0, .val 0⟩⟩

/-- gRPC status codes produced by the server. -/
inductive StatusCode where
  | invalidArgument
  | alreadyExists
  | notFound
deriving DecidableEq, Repr

/-- A `tonic::Status`: a code plus a human-readable message. -/
structure Status where
  code : StatusCode
  message : String
deriving DecidableEq, Repr

/-- The `HashMap<String, Student>` behind the `RwLock`.  Iteration order of a
Rust `HashMap` is unspecified; the embedding fixes association-list order
(fresh keys appended, replaced keys kept in place), one admissible
deterministic order.  Crucially the server code never sorts this order. -/
abbrev Store := List (String × Student)

/-- `HashMap::contains_key`. -/
def Store.contains_key (store : Store) (k : String) : Bool :=
  (store : List (String × Student)).any (fun p => p.1 == k)

/-- `HashMap::get` (cloning the record, as the handlers do). -/
def Store.get? (store : Store) (k : String) : Option Student :=
  ((store : List (String × Student)).find? (fun p => p.1 == k)).map (fun p => p.2)

/-- `HashMap::insert` as the handlers use it: replace in place when the key
is present, otherwise append.  (`create_student` only calls it on absent keys;
`update_student`'s `get_mut` assignment is replacement in place.) -/
def Store.insert (store : Store) (k : String) (v : Student) : Store :=
  (store : List (String × Student)).map
      (fun p => if p.1 == k then (p.1, v) else p) ++
    (if Store.contains_key store k then [] else [(k, v)])

/-- `HashMap::remove`: the removed record, if any, and the remaining map. -/
def Store.remove (store : Store) (k : String) : Option Student × Store :=
  (Store.get? store k,
    ((store : List (String × Student)).filter (fun p => !(p.1 == k)) : Store))

/-- `HashMap::values().cloned().collect::<Vec<_>>()` in the embedding's
iteration order. -/
def Store.values (store : Store) : List Student :=
  (store : List (String × Student)).map (fun p => p.2)

/-- The keys of the store, in enumeration order (an observer used to state
frame conditions; the handlers do not call it). -/
def Store.keys (store : Store) : List String := store.map Prod.fst

/-- `validate_student` (src/server/src/main.rs lines 28–42), checks in source
order: blank name, blank email, `age < 0 || age > 150`,
`gpa < 0.0 || gpa > 4.0`. -/
def validate_student (student : Student) : Except Status Unit :=
  if isBlank student.name then
    .error ⟨.invalidArgument, "Student name cannot be empty"⟩
  else if isBlank student.email then
    .error ⟨.invalidArgument, "Student email cannot be empty"⟩
  else if student.age < 0 || student.age > 150 then
    .error ⟨.invalidArgument, "Student age must be between 0 and 150"⟩
  else if F64.lt student.gpa (.val 0) || F64.gt student.gpa (.val 4) then
    .error ⟨.invalidArgument, "Student GPA must be between 0.0 and 4.0"⟩
  else
    .ok ()

/-- `CreateStudentRequest` / `UpdateStudentRequest` payload: an optional
inner record (`unwrap_or_default` in the handlers). -/
structure StudentRequest where
  student : Option Student
deriving DecidableEq, Repr

/-- The id-defaulting step of `create_student` (lines 56–59): Rust's
`if student.id.is_empty() { student.id = Uuid::new_v4().to_string(); }`,
with the freshly drawn UUID string passed in as `freshId`. -/
def createdRecord (freshId : String) (s : Student) : Student :=
  if s.id == "" then { s with id := freshId } else s

/-- `create_student` (lines 47–75).  `freshId` stands for the
`Uuid::new_v4().to_string()` drawn when the submitted id is empty.  Returns
the handler's result and the store it leaves behind. -/
def create_student (freshId : String) (req : StudentRequest) (store : Store) :
    Except Status Student × Store :=
  let student := req.student.getD default
  match validate_student student with
  | .error e => (.error e, store)
  | .ok _ =>
    let student := createdRecord freshId student
    if Store.contains_key store student.id then
      (.error ⟨.alreadyExists, "Student with this ID already exists"⟩, store)
    else
      (.ok student, Store.insert store student.id student)

/-- `get_student` (lines 77–98): blank-id check, then point lookup. -/
def get_student (id : String) (store : Store) : Except Status Student :=
  if isBlank id then
    .error ⟨.invalidArgument, "Student ID cannot be empty"⟩
  else
    match Store.get? store id with
    | some s => .ok s
    | none => .error ⟨.notFound, "Student not found"⟩

/-- `update_student` (lines 100–125): blank-id check, validation, then
`get_mut` and total in-place replacement of the stored record. -/
def update_student (req : StudentRequest) (store : Store) :
    Except Status Student × Store :=
  let student := req.student.getD default
  if isBlank student.id then
    (.error ⟨.invalidArgument, "Student ID cannot be empty"⟩, store)
  else
    match validate_student student with
    | .error e => (.error e, store)
    | .ok _ =>
      if Store.contains_key store student.id then
        (.ok student, Store.insert store student.id student)
      else
        (.error ⟨.notFound, "Student not found"⟩, store)

/-- `DeleteStudentResponse`: success flag and confirmation message. -/
structure DeleteStudentResponse where
  success : Bool
  message : String
deriving DecidableEq, Repr

/-- `delete_student` (lines 127–149): blank-id check, then `HashMap::remove`;
on success the message interpolates the deleted record's name. -/
def delete_student (id : String) (store : Store) :
    Except Status DeleteStudentResponse × Store :=
  if isBlank id then
    (.error ⟨.invalidArgument, "Student ID cannot be empty"⟩, store)
  else
    match Store.remove store id with
    | (some s, store') =>
      (.ok ⟨true, "Student " ++ s.name ++ " deleted successfully"⟩, store')
    | (none, store') => (.error ⟨.notFound, "Student not found"⟩, store')

/-- `ListStudentsRequest`: `page_size: i32` and `page_token: string`. -/
structure ListStudentsRequest where
  page_size : ℤ
  page_token : String
deriving DecidableEq, Repr

/-- `ListStudentsResponse`: the page, the next token, `total_count: i32`. -/
structure ListStudentsResponse where
  students : List Student
  next_page_token : String
  total_count : ℤ
deriving DecidableEq, Repr

/-- The numeric value of an ASCII decimal digit, or `none`. -/
def decDigit? (c : Char) : Option Nat :=
  if 48 ≤ c.toNat ∧ c.toNat ≤ 57 then some (c.toNat - 48) else none

/-- Reads a run of ASCII digits as a decimal number; `none` on any
non-digit character. -/
def parseDigits : List Char → Nat → Option Nat
  | [], acc => some acc
  | c :: cs, acc =>
    match decDigit? c with
    | some d => parseDigits cs (acc * 10 + d)
    | none => none

/-- Rust `str::parse::<usize>`: optional leading `+`, then ASCII digits only;
fails on the empty string, on any other character, and on overflow past
`usize::MAX = 2^64 - 1`. -/
def parseUsize (s : String) : Option Nat :=
  let ds := match s.data with
    | '+' :: rest => rest
    | l => l
  if ds.isEmpty then none
  else
    match parseDigits ds 0 with
    | some n => if n < 2 ^ 64 then some n else none
    | none => none

/-- The handler's effective page size (line 156):
`if req.page_size <= 0 { 10 } else { req.page_size as usize }`. -/
def effectivePageSize (page_size : ℤ) : Nat :=
  if page_size ≤ 0 then 10 else page_size.toNat

/-- Rust `Vec` slicing `v[a..b]`: defined only when `a ≤ b ≤ v.len()`,
otherwise the program panics — modelled as `none`. -/
def sliceChecked (v : List Student) (a b : Nat) : Option (List Student) :=
  if a ≤ b ∧ b ≤ v.length then some ((v.drop a).take (b - a)) else none

/-- `list_students` (lines 151–180).  `none` models the Rust panic of the
slice expression; no gRPC `Status` is ever produced on this path. -/
def list_students (req : ListStudentsRequest) (store : Store) :
    Option ListStudentsResponse :=
  let page_size := effectivePageSize req.page_size
  let students := Store.values store
  let total_count : ℤ := students.length
  let start_index := (parseUsize req.page_token).getD 0
  let end_index := min (start_index + page_size) students.length
  match sliceChecked students start_index end_index with
  | some page_students =>
    some ⟨page_students,
      if end_index < students.length then toString end_index else "",
      total_count⟩
  | none => none

/-! ### Concrete fixtures -/

/-- A valid record with id `"a"` (gpa 3.8 = 19/5). -/
def sAlice : Student := ⟨"a", "Alice", "alice@example.com", "CS", 20, .val (mkRat 19 5)⟩

/-- A valid record with id `"b"` (gpa 3.6 = 18/5). -/
def sBob : Student := ⟨"b", "Bob", "bob@example.com", "Math", 22, .val (mkRat 18 5)⟩

/-- A valid record whose id is a single space: non-empty, blank after trim. -/
def sSpace : Student := ⟨" ", "Carol", "carol@example.com", "Bio", 21, .val 3⟩

/-- A valid record with empty id (to be generated by the service). -/
def sNoId : Student := ⟨"", "Dana", "dana@example.com", "Phys", 23, .val 2⟩

/-- A valid record except that its gpa is the floating-point NaN. -/
def sNan : Student := ⟨"n1", "Nan", "nan@example.com", "CS", 20, .nan⟩

/-- A one-record store. -/
def oneStore : Store := [("a", sAlice)]

/-- A two-record store. -/
def twoStore : Store := [("a", sAlice), ("b", sBob)]

/-- A five-record store (distinct ids). -/
def fiveStore : Store :=
  [("a", sAlice), ("b", sBob),
   ("c", ⟨"c", "Eve", "eve@example.com", "Chem", 24, .val 3⟩),
   ("d", ⟨"d", "Finn", "finn@example.com", "Art", 25, .val 2⟩),
   ("e", ⟨"e", "Gray", "gray@example.com", "Geo", 26, .val 1⟩)]

/-- The store reached from the empty store by creating id `"b"` and then
id `"a"`: its enumeration order is `[sBob, sAlice]`. -/
def storeBA : Store :=
  (create_student "g2" ⟨some sAlice⟩ (create_student "g1" ⟨some sBob⟩ (default : Store)).2).2

/-- Modelled from the spec: the id-sorted enumeration order required of
`Snapshot()` (§4.1, §6).  Byte-wise lexicographic comparison of ids,
matching `Ord` on Rust strings; stated structurally so it evaluates. -/
def charListLe : List Char → List Char → Bool
  | [], _ => true
  | _ :: _, [] => false
  | a :: xs, b :: ys =>
    if a.toNat < b.toNat then true
    else if b.toNat < a.toNat then false
    else charListLe xs ys

/-- Modelled from the spec: a sequence of records is id-sorted when each
adjacent pair is in (byte-wise) id order. -/
def idSorted : List Student → Bool
  | [] => true
  | [_] => true
  | x :: y :: rest => charListLe x.id.data y.id.data && idSorted (y :: rest)

/-! ### Claim theorems (closed evaluations) -/

/-- C1.  The claim says every List request whose token parses to an offset
`≥` the record count succeeds with an empty page.  The code satisfies this
only at offset `=` length; at any offset `>` length the slice
`students[start_index..end_index]` has `start_index > end_index` and the
handler panics (modelled by `none`): on a one-record store, token `"1"`
returns the empty page but token `"2"` panics. -/
theorem list_students_offset_gt_length_panics :
    list_students ⟨10, "2"⟩ oneStore = none ∧
      list_students ⟨10, "1"⟩ oneStore = some ⟨[], "", 1⟩ := by
  decide

/-- C2.  The enumeration underlying List is `HashMap::values()` and the code
never sorts it, so it need not be id-sorted: creating id `"b"` and then id
`"a"` yields the enumeration `[sBob, sAlice]`, which is not id-sorted
(whereas the reversed sequence is). -/
theorem snapshot_order_not_id_sorted :
    Store.values storeBA = [sBob, sAlice] ∧
      idSorted (Store.values storeBA) = false ∧
      idSorted [sAlice, sBob] = true := by
  decide

/-- C4 counterexample.  The claim says List never fails on any input, but on
a two-record store the token `"7"` makes the slice panic (modelled by
`none`): List is not total. -/
theorem list_students_not_total_cex :
    list_students ⟨3, "7"⟩ twoStore = none := by
  decide

/-- C6 counterexample.  For the valid record `sSpace`, whose id is the
non-empty blank string `" "`, Create succeeds and returns the record, but
Get on the returned id fails the blank-id check with `InvalidArgument`
instead of returning the record. -/
theorem create_then_get_whitespace_id_cex :
    create_student "g1" ⟨some sSpace⟩ (default : Store) = (.ok sSpace, [(" ", sSpace)]) ∧
      get_student sSpace.id [(" ", sSpace)] =
        .error ⟨.invalidArgument, "Student ID cannot be empty"⟩ := by
  decide

/-- C10.  Both IEEE comparisons `gpa < 0.0` and `gpa > 4.0` are false for
NaN, so validation accepts a NaN gpa, and Create and Update store a record
whose gpa does not satisfy `0.0 ≤ gpa ≤ 4.0`. -/
theorem nan_gpa_passes_validation :
    F64.lt sNan.gpa (.val 0) = false ∧
      F64.gt sNan.gpa (.val 4) = false ∧
      validate_student sNan = .ok () ∧
      ¬(F64.le (.val 0) sNan.gpa = true ∧ F64.le sNan.gpa (.val 4) = true) ∧
      create_student "g9" ⟨some sNan⟩ (default : Store) = (.ok sNan, [("n1", sNan)]) ∧
      update_student ⟨some sNan⟩ [("n1", sAlice)] = (.ok sNan, [("n1", sNan)]) := by
  decide

/-! ### Lemmas about the store primitives -/

lemma find?_map_replace_self (l : List (String × Student)) (k : String) (v : Student) :
    List.find? (fun p => p.1 == k)
        (l.map (fun p => if p.1 == k then (p.1, v) else p)) =
      (List.find? (fun p => p.1 == k) l).map (fun p => (p.1, v)) := by
  induction l with
  | nil => rfl
  | cons p rest ih =>
    by_cases hp : (p.1 == k) = true
    · simp only [List.map_cons, hp, if_true, List.find?_cons, Option.map_some']
    · simp only [List.map_cons, hp, if_false, Bool.false_eq_true, List.find?_cons, ih]

lemma find?_map_replace_ne (l : List (String × Student)) (k k' : String) (v : Student)
    (h : k' ≠ k) :
    List.find? (fun p => p.1 == k')
        (l.map (fun p => if p.1 == k then (p.1, v) else p)) =
      List.find? (fun p => p.1 == k') l := by
  induction l with
  | nil => rfl
  | cons p rest ih =>
    by_cases hpk : (p.1 == k) = true
    · have hp' : (p.1 == k') = false := by
        have : p.1 = k := by simpa using hpk
        simp [this, Ne.symm h]
      simp only [List.map_cons, hpk, if_true, List.find?_cons, hp', ih]
    · by_cases hp' : (p.1 == k') = true
      · simp only [List.map_cons, hpk, if_false, Bool.false_eq_true, List.find?_cons, hp']
      · simp only [List.map_cons, hpk, if_false, Bool.false_eq_true, List.find?_cons,
          hp', ih]

lemma Store.contains_key_false_iff (store : Store) (k : String) :
    Store.contains_key store k = false ↔ Store.get? store k = none := by
  induction store with
  | nil => simp [Store.contains_key, Store.get?]
  | cons p rest ih =>
    by_cases h : p.1 = k
    · simp [Store.contains_key, Store.get?, h]
    · simpa [Store.contains_key, Store.get?, h] using ih

lemma Store.contains_key_true_iff (store : Store) (k : String) :
    Store.contains_key store k = true ↔ ∃ v, Store.get? store k = some v := by
  rcases hg : Store.get? store k with _ | v
  · simp only [← Store.contains_key_false_iff] at hg
    simp [hg]
  · constructor
    · intro _; exact ⟨v, rfl⟩
    · intro _
      by_contra hfalse
      have : Store.get? store k = none :=
        (Store.contains_key_false_iff store k).mp (by simpa using hfalse)
      simp [this] at hg

lemma Store.get?_insert_self (store : Store) (k : String) (v : Student) :
    Store.get? (Store.insert store k v) k = some v := by
  rcases hc : Store.contains_key store k with _ | _
  · have hg : Store.get? store k = none := (Store.contains_key_false_iff store k).mp hc
    have hf : List.find? (fun p => p.1 == k) store = none := by
      rcases hff : List.find? (fun p => p.1 == k) store with _ | q
      · exact hff
      · rw [Store.get?, hff, Option.map_some'] at hg
        cases hg
    rw [Store.insert, hc, if_neg (by simp), Store.get?, List.find?_append,
      find?_map_replace_self, hf, Option.map_none', Option.none_or]
    simp [List.find?_cons]
  · obtain ⟨q, hq⟩ : ∃ q, List.find? (fun p => p.1 == k) store = some q := by
      rcases hff : List.find? (fun p => p.1 == k) store with _ | q
      · exfalso
        have hnone : Store.get? store k = none := by rw [Store.get?, hff]; rfl
        have hfalse : Store.contains_key store k = false :=
          (Store.contains_key_false_iff store k).mpr hnone
        rw [hfalse] at hc
        cases hc
      · exact ⟨q, hff⟩
    rw [Store.insert, hc, if_pos rfl, List.append_nil, Store.get?,
      find?_map_replace_self, hq, Option.map_some', Option.map_some']

lemma Store.get?_insert_ne (store : Store) (k k' : String) (v : Student) (h : k' ≠ k) :
    Store.get? (Store.insert store k v) k' = Store.get? store k' := by
  have hne : List.find? (fun p => p.1 == k') [(k, v)] = none := by
    simp [List.find?_cons, Ne.symm h]
  rcases hc : Store.contains_key store k with _ | _
  · rw [Store.insert, hc, if_neg (by simp), Store.get?, List.find?_append,
      find?_map_replace_ne store k k' v h, hne, Option.or_none]
    rfl
  · rw [Store.insert, hc, if_pos rfl, List.append_nil, Store.get?,
      find?_map_replace_ne store k k' v h]
    rfl

lemma Store.keys_insert_of_contains (store : Store) (k : String) (v : Student)
    (h : Store.contains_key store k = true) :
    Store.keys (Store.insert store k v) = Store.keys store := by
  rw [Store.insert, h, if_pos rfl, List.append_nil, Store.keys, Store.keys, List.map_map]
  refine List.map_congr_left ?_
  intro p _
  by_cases hp : (p.1 == k) = true
  · simp [Function.comp, hp]
  · simp [Function.comp, hp]

lemma Store.filter_of_get?_none (store : Store) (k : String)
    (h : Store.get? store k = none) :
    store.filter (fun p => !(p.1 == k)) = store := by
  induction store with
  | nil => rfl
  | cons p rest ih =>
    by_cases hp : p.1 = k
    · simp [Store.get?, hp] at h
    · have hrest : Store.get? rest k = none := by
        simpa [Store.get?, List.find?_cons, hp] using h
      simp [List.filter_cons, hp, ih hrest]

lemma Store.get?_filter_none (store : Store) (k : String) :
    Store.get? (store.filter (fun p => !(p.1 == k))) k = none := by
  induction store with
  | nil => rfl
  | cons p rest ih =>
    by_cases hp : p.1 = k
    · simpa [List.filter_cons, hp] using ih
    · simpa [List.filter_cons, hp, Store.get?, List.find?_cons] using ih

/-! ### Outcome characterizations of the handlers -/

lemma create_student_cases (freshId : String) (req : StudentRequest) (store : Store) :
    (∃ e, validate_student (req.student.getD default) = .error e ∧
      create_student freshId req store = (.error e, store)) ∨
    (validate_student (req.student.getD default) = .ok () ∧
      ((Store.contains_key store (createdRecord freshId (req.student.getD default)).id = true ∧
        create_student freshId req store =
          (.error ⟨.alreadyExists, "Student with this ID already exists"⟩, store)) ∨
      (Store.contains_key store (createdRecord freshId (req.student.getD default)).id = false ∧
        create_student freshId req store =
          (.ok (createdRecord freshId (req.student.getD default)),
            Store.insert store (createdRecord freshId (req.student.getD default)).id
              (createdRecord freshId (req.student.getD default)))))) := by
  rcases hv : validate_student (req.student.getD default) with e | u
  · exact .inl ⟨e, rfl, by simp [create_student, hv]⟩
  · cases u
    refine .inr ⟨rfl, ?_⟩
    rcases hc : Store.contains_key store
        (createdRecord freshId (req.student.getD default)).id with _ | _
    · exact .inr ⟨rfl, by simp [create_student, hv, hc]⟩
    · exact .inl ⟨rfl, by simp [create_student, hv, hc]⟩

lemma update_student_cases (req : StudentRequest) (store : Store) :
    (isBlank (req.student.getD default).id = true ∧
      update_student req store =
        (.error ⟨.invalidArgument, "Student ID cannot be empty"⟩, store)) ∨
    (isBlank (req.student.getD default).id = false ∧
      ∃ e, validate_student (req.student.getD default) = .error e ∧
        update_student req store = (.error e, store)) ∨
    (isBlank (req.student.getD default).id = false ∧
      validate_student (req.student.getD default) = .ok () ∧
      ((Store.contains_key store (req.student.getD default).id = true ∧
        update_student req store = (.ok (req.student.getD default),
          Store.insert store (req.student.getD default).id (req.student.getD default))) ∨
      (Store.contains_key store (req.student.getD default).id = false ∧
        update_student req store = (.error ⟨.notFound, "Student not found"⟩, store)))) := by
  rcases hb : isBlank (req.student.getD default).id with _ | _
  · rcases hv : validate_student (req.student.getD default) with e | u
    · exact .inr (.inl ⟨rfl, e, rfl, by simp [update_student, hb, hv]⟩)
    · cases u
      rcases hc : Store.contains_key store (req.student.getD default).id with _ | _
      · exact .inr (.inr ⟨rfl, rfl, .inr ⟨rfl, by simp [update_student, hb, hv, hc]⟩⟩)
      · exact .inr (.inr ⟨rfl, rfl, .inl ⟨rfl, by simp [update_student, hb, hv, hc]⟩⟩)
  · exact .inl ⟨rfl, by simp [update_student, hb]⟩

lemma delete_student_cases (id : String) (store : Store) :
    (isBlank id = true ∧
      delete_student id store =
        (.error ⟨.invalidArgument, "Student ID cannot be empty"⟩, store)) ∨
    (isBlank id = false ∧ Store.get? store id = none ∧
      delete_student id store = (.error ⟨.notFound, "Student not found"⟩,
        store.filter (fun p => !(p.1 == id)))) ∨
    (isBlank id = false ∧ ∃ s, Store.get? store id = some s ∧
      delete_student id store =
        (.ok ⟨true, "Student " ++ s.name ++ " deleted successfully"⟩,
          store.filter (fun p => !(p.1 == id)))) := by
  rcases hb : isBlank id with _ | _
  · rcases hg : Store.get? store id with _ | s
    · exact .inr (.inl ⟨rfl, rfl, by simp [delete_student, hb, Store.remove, hg]⟩)
    · exact .inr (.inr ⟨rfl, s, rfl, by simp [delete_student, hb, Store.remove, hg]⟩)
  · exact .inl ⟨rfl, by simp [delete_student, hb]⟩

lemma list_students_eq (req : ListStudentsRequest) (store : Store) (st : Nat)
    (hst : (parseUsize req.page_token).getD 0 = st)
    (h : st ≤ (Store.values store).length) :
    list_students req store = some
      ⟨((Store.values store).drop st).take
          (min (st + effectivePageSize req.page_size) (Store.values store).length - st),
        if min (st + effectivePageSize req.page_size) (Store.values store).length <
            (Store.values store).length
        then toString (min (st + effectivePageSize req.page_size)
            (Store.values store).length)
        else "",
        ((Store.values store).length : ℤ)⟩ := by
  simp only [list_students, hst, sliceChecked]
  rw [if_pos ⟨le_min (Nat.le_add_right st _) h, min_le_right _ _⟩]

lemma list_students_eq_none (req : ListStudentsRequest) (store : Store) (st : Nat)
    (hst : (parseUsize req.page_token).getD 0 = st)
    (h : (Store.values store).length < st) :
    list_students req store = none := by
  simp only [list_students, hst, sliceChecked]
  rw [if_neg]
  intro hcon
  exact absurd (le_trans hcon.1 (min_le_right _ _)) (not_le.mpr h)

lemma validate_student_ok_iff (s : Student) :
    validate_student s = .ok () ↔
      (isBlank s.name = false ∧ isBlank s.email = false ∧
        ¬(s.age < 0 ∨ 150 < s.age) ∧
        F64.lt s.gpa (.val 0) = false ∧ F64.gt s.gpa (.val 4) = false) := by
  by_cases h1 : isBlank s.name = true <;> by_cases h2 : isBlank s.email = true <;>
    by_cases h3 : s.age < 0 <;> by_cases h4 : 150 < s.age <;>
    by_cases h5 : F64.lt s.gpa (.val 0) = true <;>
    by_cases h6 : F64.gt s.gpa (.val 4) = true <;>
    simp [validate_student, h1, h2, h3, h4, h5, h6]

lemma validate_student_error_invalid (s : Student) (e : Status)
    (h : validate_student s = .error e) : e.code = .invalidArgument := by
  unfold validate_student at h
  split at h
  · cases h; rfl
  · split at h
    · cases h; rfl
    · split at h
      · cases h; rfl
      · split at h
        · cases h; rfl
        · cases h

/-! ### Claim theorems (general statements) -/

/-- C7.  Validation (shared verbatim by Create and Update) accepts a record
with a numeric (non-NaN) gpa iff the name and email are non-blank, the age
lies in `[0, 150]` and the gpa in `[0, 4]`; every rejection is an
`InvalidArgument`; and the claim's boundary inputs behave exactly as stated
(age 0 and 150, gpa 0 and 4 accepted; age −1 and 151, gpa 4.01 rejected). -/
theorem validate_student_boundaries :
    (∀ (s : Student) (q : ℚ), s.gpa = .val q →
      ((validate_student s = .ok ()) ↔
        (isBlank s.name = false ∧ isBlank s.email = false ∧
          0 ≤ s.age ∧ s.age ≤ 150 ∧ 0 ≤ q ∧ q ≤ 4)) ∧
      ∀ e, validate_student s = .error e → e.code = .invalidArgument) ∧
    validate_student { sAlice with age := 0 } = .ok () ∧
    validate_student { sAlice with age := 150 } = .ok () ∧
    validate_student { sAlice with age := -1 } =
      .error ⟨.invalidArgument, "Student age must be between 0 and 150"⟩ ∧
    validate_student { sAlice with age := 151 } =
      .error ⟨.invalidArgument, "Student age must be between 0 and 150"⟩ ∧
    validate_student { sAlice with gpa := .val 0 } = .ok () ∧
    validate_student { sAlice with gpa := .val 4 } = .ok () ∧
    validate_student { sAlice with gpa := .val (mkRat 401 100) } =
      .error ⟨.invalidArgument, "Student GPA must be between 0.0 and 4.0"⟩ := by
  refine ⟨?_, by decide, by decide, by decide, by decide, by decide, by decide, by decide⟩
  intro s q hq
  refine ⟨?_, fun e he => validate_student_error_invalid s e he⟩
  rw [validate_student_ok_iff, hq]
  simp only [F64.lt, F64.gt, decide_eq_false_iff_not, not_lt, not_or]
  constructor
  · rintro ⟨h1, h2, ⟨h3, h4⟩, h5, h6⟩
    exact ⟨h1, h2, h3, h4, h5, h6⟩
  · rintro ⟨h1, h2, h3, h4, h5, h6⟩
    exact ⟨h1, h2, ⟨h3, h4⟩, h5, h6⟩

/-- C7 witness: the concrete valid record `sAlice` (gpa 19/5) is accepted. -/
theorem validate_student_boundaries_witness :
    validate_student sAlice = .ok () :=
  (validate_student_boundaries.1 sAlice (mkRat 19 5) rfl).1.mpr (by decide)

/-- C5.  A Create whose valid record carries a non-empty id already present
in the store fails with `AlreadyExists` and leaves the store untouched; more
generally every failing Create, Update or Delete returns the store exactly
as it was (validation precedes any mutation; no partial write occurs). -/
theorem failing_ops_preserve_store (freshId : String) (s : Student)
    (req : StudentRequest) (id : String) (store : Store) :
    (validate_student s = .ok () → s.id ≠ "" → Store.contains_key store s.id = true →
      create_student freshId ⟨some s⟩ store =
        (.error ⟨.alreadyExists, "Student with this ID already exists"⟩, store)) ∧
    (∀ e, (create_student freshId req store).1 = .error e →
      (create_student freshId req store).2 = store) ∧
    (∀ e, (update_student req store).1 = .error e →
      (update_student req store).2 = store) ∧
    (∀ e, (delete_student id store).1 = .error e →
      (delete_student id store).2 = store) := by
  refine ⟨?_, ?_, ?_, ?_⟩
  · intro hval hid hc
    have hcr : createdRecord freshId s = s := by simp [createdRecord, hid]
    rcases create_student_cases freshId ⟨some s⟩ store with ⟨e, he, _⟩ | ⟨_, hcase⟩
    · have he' : validate_student s = .error e := he
      rw [hval] at he'
      cases he'
    · rcases hcase with ⟨_, heq⟩ | ⟨hcf, _⟩
      · exact heq
      · have hcf' : Store.contains_key store (createdRecord freshId s).id = false := hcf
        rw [hcr, hc] at hcf'
        cases hcf'
  · intro e h
    rcases create_student_cases freshId req store with ⟨e', _, heq⟩ | ⟨_, hcase⟩
    · rw [heq]
    · rcases hcase with ⟨_, heq⟩ | ⟨_, heq⟩
      · rw [heq]
      · rw [heq] at h
        simp at h
  · intro e h
    rcases update_student_cases req store with
      ⟨_, heq⟩ | ⟨_, e', _, heq⟩ | ⟨_, _, ⟨_, heq⟩ | ⟨_, heq⟩⟩
    · rw [heq]
    · rw [heq]
    · rw [heq] at h
      simp at h
    · rw [heq]
  · intro e h
    rcases delete_student_cases id store with
      ⟨_, heq⟩ | ⟨_, hg, heq⟩ | ⟨_, s', hg, heq⟩
    · rw [heq]
    · rw [heq]
      exact Store.filter_of_get?_none store id hg
    · rw [heq] at h
      simp at h

/-- C5 witness: on a one-record store, duplicate-id Create fails
`AlreadyExists` with the store unchanged, and failing Update and Delete
leave the store unchanged. -/
theorem failing_ops_preserve_store_witness :
    create_student "g7" ⟨some sAlice⟩ oneStore =
      (.error ⟨.alreadyExists, "Student with this ID already exists"⟩, oneStore) ∧
    (update_student ⟨some sBob⟩ oneStore).2 = oneStore ∧
    (delete_student "zz" oneStore).2 = oneStore :=
  ⟨(failing_ops_preserve_store "g7" sAlice ⟨some sAlice⟩ "zz" oneStore).1
      (by decide) (by decide) (by decide),
   (failing_ops_preserve_store "g7" sAlice ⟨some sBob⟩ "zz" oneStore).2.2.1
      ⟨.notFound, "Student not found"⟩ (by decide),
   (failing_ops_preserve_store "g7" sAlice ⟨some sBob⟩ "zz" oneStore).2.2.2
      ⟨.notFound, "Student not found"⟩ (by decide)⟩

/-- C8.  Delete fails `InvalidArgument` on a blank id and `NotFound` on an
absent id; after a successful Delete the id is gone: Get fails `NotFound`
and a second Delete fails `NotFound` (Delete is not idempotent); a
successful Delete returns `success = true` and a message naming the deleted
record. -/
theorem delete_student_spec (id : String) (store : Store) :
    (isBlank id = true →
      delete_student id store =
        (.error ⟨.invalidArgument, "Student ID cannot be empty"⟩, store)) ∧
    (isBlank id = false → Store.get? store id = none →
      (delete_student id store).1 = .error ⟨.notFound, "Student not found"⟩) ∧
    (∀ resp store', delete_student id store = (.ok resp, store') →
      resp.success = true ∧
      (∃ s, Store.get? store id = some s ∧
        resp.message = "Student " ++ s.name ++ " deleted successfully") ∧
      get_student id store' = .error ⟨.notFound, "Student not found"⟩ ∧
      delete_student id store' = (.error ⟨.notFound, "Student not found"⟩, store')) := by
  refine ⟨?_, ?_, ?_⟩
  · intro hb
    rcases delete_student_cases id store with ⟨_, heq⟩ | ⟨hb', _, _⟩ | ⟨hb', _, _, _⟩
    · exact heq
    · rw [hb] at hb'; cases hb'
    · rw [hb] at hb'; cases hb'
  · intro hb hg
    rcases delete_student_cases id store with ⟨hb', _⟩ | ⟨_, _, heq⟩ | ⟨_, s', hg', _⟩
    · rw [hb] at hb'; cases hb'
    · rw [heq]
    · rw [hg] at hg'; cases hg'
  · intro resp store' h
    rcases delete_student_cases id store with ⟨_, heq⟩ | ⟨_, _, heq⟩ | ⟨hb, s', hg, heq⟩
    · rw [heq] at h; simp at h
    · rw [heq] at h; simp at h
    · rw [heq] at h
      simp only [Prod.mk.injEq, Except.ok.injEq] at h
      obtain ⟨hresp, hstore'⟩ := h
      have hgone : Store.get? store' id = none := by
        rw [← hstore']
        exact Store.get?_filter_none store id
      refine ⟨by rw [← hresp], ⟨s', hg, by rw [← hresp]⟩, ?_, ?_⟩
      · simp [get_student, hb, hgone]
      · rcases delete_student_cases id store' with ⟨hb', _⟩ | ⟨_, _, heq'⟩ | ⟨_, s'', hg'', _⟩
        · rw [hb] at hb'; cases hb'
        · rw [heq']
          rw [Store.filter_of_get?_none store' id hgone]
        · rw [hgone] at hg''; cases hg''

/-- C8 witness: blank id, absent id, and a successful Delete on the
one-record store with its aftermath. -/
theorem delete_student_spec_witness :
    delete_student " " oneStore =
      (.error ⟨.invalidArgument, "Student ID cannot be empty"⟩, oneStore) ∧
    (delete_student "zz" oneStore).1 = .error ⟨.notFound, "Student not found"⟩ ∧
    ((⟨true, "Student Alice deleted successfully"⟩ : DeleteStudentResponse).success = true ∧
      (∃ s, Store.get? oneStore "a" = some s ∧
        (⟨true, "Student Alice deleted successfully"⟩ : DeleteStudentResponse).message =
          "Student " ++ s.name ++ " deleted successfully") ∧
      get_student "a" ([] : Store) = .error ⟨.notFound, "Student not found"⟩ ∧
      delete_student "a" ([] : Store) =
        (.error ⟨.notFound, "Student not found"⟩, ([] : Store))) :=
  ⟨(delete_student_spec " " oneStore).1 (by decide),
   (delete_student_spec "zz" oneStore).2.1 (by decide) (by decide),
   (delete_student_spec "a" oneStore).2.2
      ⟨true, "Student Alice deleted successfully"⟩ ([] : Store) (by decide)⟩

/-- C9.  For a valid record with a non-blank id, Update on a present id
totally replaces the stored record under the same key — the lookup at that
key afterwards returns exactly the incoming record, the key set is
unchanged, and every other key's record is untouched — while Update on an
absent id fails `NotFound` and leaves the store unchanged. -/
theorem update_student_replaces (s : Student) (store : Store)
    (hid : isBlank s.id = false) (hval : validate_student s = .ok ()) :
    (Store.contains_key store s.id = true →
      update_student ⟨some s⟩ store = (.ok s, Store.insert store s.id s) ∧
      Store.get? (Store.insert store s.id s) s.id = some s ∧
      Store.keys (Store.insert store s.id s) = Store.keys store ∧
      ∀ k, k ≠ s.id → Store.get? (Store.insert store s.id s) k = Store.get? store k) ∧
    (Store.contains_key store s.id = false →
      update_student ⟨some s⟩ store = (.error ⟨.notFound, "Student not found"⟩, store)) := by
  constructor
  · intro hc
    refine ⟨?_, Store.get?_insert_self store s.id s,
      Store.keys_insert_of_contains store s.id s hc,
      fun k hk => Store.get?_insert_ne store s.id k s hk⟩
    rcases update_student_cases ⟨some s⟩ store with
      ⟨hb, _⟩ | ⟨_, e, he, _⟩ | ⟨_, _, ⟨_, heq⟩ | ⟨hcf, _⟩⟩
    · have hb' : isBlank s.id = true := hb
      rw [hid] at hb'; cases hb'
    · have he' : validate_student s = .error e := he
      rw [hval] at he'; cases he'
    · exact heq
    · have hcf' : Store.contains_key store s.id = false := hcf
      rw [hc] at hcf'; cases hcf'
  · intro hc
    rcases update_student_cases ⟨some s⟩ store with
      ⟨hb, _⟩ | ⟨_, e, he, _⟩ | ⟨_, _, ⟨hct, _⟩ | ⟨_, heq⟩⟩
    · have hb' : isBlank s.id = true := hb
      rw [hid] at hb'; cases hb'
    · have he' : validate_student s = .error e := he
      rw [hval] at he'; cases he'
    · have hct' : Store.contains_key store s.id = true := hct
      rw [hc] at hct'; cases hct'
    · exact heq

/-- C9 witness: replacing the record under key `"a"` in the one-record
store, and updating a missing id. -/
theorem update_student_replaces_witness :
    update_student ⟨some { sAlice with age := 30 }⟩ oneStore =
      (.ok { sAlice with age := 30 },
        Store.insert oneStore "a" { sAlice with age := 30 }) ∧
    Store.get? (Store.insert oneStore "a" { sAlice with age := 30 }) "a" =
      some { sAlice with age := 30 } ∧
    Store.keys (Store.insert oneStore "a" { sAlice with age := 30 }) =
      Store.keys oneStore ∧
    update_student ⟨some sBob⟩ oneStore =
      (.error ⟨.notFound, "Student not found"⟩, oneStore) :=
  ⟨((update_student_replaces { sAlice with age := 30 } oneStore (by decide) (by decide)).1
      (by decide)).1,
   ((update_student_replaces { sAlice with age := 30 } oneStore (by decide) (by decide)).1
      (by decide)).2.1,
   ((update_student_replaces { sAlice with age := 30 } oneStore (by decide) (by decide)).1
      (by decide)).2.2.1,
   (update_student_replaces sBob oneStore (by decide) (by decide)).2 (by decide)⟩

/-- C4 (amended).  List normalizes its inputs: the effective page size is
`pageSize` when positive and 10 otherwise, and a token that does not parse
(including the empty string) behaves exactly as offset 0; whenever the
parsed offset is at most the record count List succeeds — returning the
total count and a page of `min(effectiveSize, remaining)` records — and no
`Status` failure exists on any path (the only non-success is the
out-of-bounds panic refuted separately). -/
theorem list_students_normalization (req : ListStudentsRequest) (store : Store) :
    (req.page_size ≤ 0 → effectivePageSize req.page_size = 10) ∧
    (0 < req.page_size → effectivePageSize req.page_size = req.page_size.toNat) ∧
    (parseUsize req.page_token = none →
      list_students req store = list_students ⟨req.page_size, "0"⟩ store) ∧
    ((parseUsize req.page_token).getD 0 ≤ (Store.values store).length →
      ∃ resp, list_students req store = some resp ∧
        resp.total_count = ((Store.values store).length : ℤ) ∧
        resp.students.length =
          min (effectivePageSize req.page_size)
            ((Store.values store).length - (parseUsize req.page_token).getD 0)) := by
  refine ⟨?_, ?_, ?_, ?_⟩
  · intro h
    simp [effectivePageSize, h]
  · intro h
    have h' : ¬req.page_size ≤ 0 := not_le.mpr h
    simp [effectivePageSize, h']
  · intro h
    have h0 : (parseUsize req.page_token).getD 0 = 0 := by rw [h]; rfl
    have h0' : (parseUsize "0").getD 0 = 0 := by decide
    simp only [list_students, h0, h0']
  · intro h
    refine ⟨_, list_students_eq req store _ rfl h, rfl, ?_⟩
    rw [List.length_take, List.length_drop]
    omega

/-- C4 witness: page size 0 becomes 10, the malformed token `"abc"` acts as
offset 0, and List succeeds on the two-record store. -/
theorem list_students_normalization_witness :
    effectivePageSize (0 : ℤ) = 10 ∧
    list_students ⟨0, "abc"⟩ twoStore = list_students ⟨0, "0"⟩ twoStore ∧
    (∃ resp, list_students ⟨0, "abc"⟩ twoStore = some resp ∧
      resp.total_count = ((Store.values twoStore).length : ℤ) ∧
      resp.students.length =
        min (effectivePageSize (0 : ℤ))
          ((Store.values twoStore).length - (parseUsize "abc").getD 0)) :=
  ⟨(list_students_normalization ⟨0, "abc"⟩ twoStore).1 (by decide),
   (list_students_normalization ⟨0, "abc"⟩ twoStore).2.2.1 (by decide),
   (list_students_normalization ⟨0, "abc"⟩ twoStore).2.2.2 (by decide)⟩

/-- C3.  Over any store of exactly 5 records, List with page size 2 and an
empty token yields 2 records, total count 5 and token `"2"`; following the
returned token yields the next 2 with token `"4"`; a third call yields the
last record with an empty token; the three pages concatenate to exactly the
enumeration — no repetition, no omission. -/
theorem list_pagination_roundtrip_five (store : Store)
    (h5 : (Store.values store).length = 5) :
    ∃ r1 r2 r3,
      list_students ⟨2, ""⟩ store = some r1 ∧
      r1.students.length = 2 ∧ r1.total_count = 5 ∧ r1.next_page_token = "2" ∧
      list_students ⟨2, r1.next_page_token⟩ store = some r2 ∧
      r2.students.length = 2 ∧ r2.total_count = 5 ∧ r2.next_page_token = "4" ∧
      list_students ⟨2, r2.next_page_token⟩ store = some r3 ∧
      r3.students.length = 1 ∧ r3.total_count = 5 ∧ r3.next_page_token = "" ∧
      r1.students ++ r2.students ++ r3.students = Store.values store := by
  have e2 : effectivePageSize 2 = 2 := by decide
  have t0 : (parseUsize "").getD 0 = 0 := by decide
  have t2 : (parseUsize "2").getD 0 = 2 := by decide
  have t4 : (parseUsize "4").getD 0 = 4 := by decide
  have s2 : toString (2 : Nat) = "2" := by decide
  have s4 : toString (4 : Nat) = "4" := by decide
  have H1 := list_students_eq ⟨2, ""⟩ store 0 t0 (by omega)
  have H2 := list_students_eq ⟨2, "2"⟩ store 2 t2 (by omega)
  have H3 := list_students_eq ⟨2, "4"⟩ store 4 t4 (by omega)
  simp only [e2, h5] at H1 H2 H3
  norm_num [s2, s4] at H1 H2 H3
  refine ⟨_, _, _, H1, ?_, by norm_num, rfl, H2, ?_, by norm_num, rfl, H3, ?_,
    by norm_num, rfl, ?_⟩
  · simp [List.length_take, h5]
  · simp [List.length_take, List.length_drop, h5]
  · simp [List.length_take, List.length_drop, h5]
  · have hd4 : ((Store.values store).drop 4).length = 1 := by
      rw [List.length_drop, h5]
    have ht1 : ((Store.values store).drop 4).take 1 = (Store.values store).drop 4 :=
      List.take_of_length_le (le_of_eq hd4)
    have hdd : (Store.values store).drop 4 = ((Store.values store).drop 2).drop 2 := by
      rw [List.drop_drop]
    rw [ht1, hdd, List.append_assoc, List.take_append_drop, List.take_append_drop]

/-- C3 witness: the concrete five-record store paginates in pages of
2, 2 and 1. -/
theorem list_pagination_roundtrip_five_witness :
    (Store.values fiveStore).length = 5 ∧
    (∃ r1 r2 r3,
      list_students ⟨2, ""⟩ fiveStore = some r1 ∧
      r1.students.length = 2 ∧ r1.total_count = 5 ∧ r1.next_page_token = "2" ∧
      list_students ⟨2, r1.next_page_token⟩ fiveStore = some r2 ∧
      r2.students.length = 2 ∧ r2.total_count = 5 ∧ r2.next_page_token = "4" ∧
      list_students ⟨2, r2.next_page_token⟩ fiveStore = some r3 ∧
      r3.students.length = 1 ∧ r3.total_count = 5 ∧ r3.next_page_token = "" ∧
      r1.students ++ r2.students ++ r3.students = Store.values fiveStore) :=
  ⟨by decide, list_pagination_roundtrip_five fiveStore (by decide)⟩

/-- C6 (amended).  After a successful Create of a valid record whose id is
either empty (generated) or non-blank, Get on the returned id returns the
created record; an empty submitted id comes back as the generated non-empty
id; and the ids of two successful Creates in sequence are always distinct
(the second create would fail `AlreadyExists` rather than reuse the id). -/
theorem create_then_get_roundtrip (freshId : String) (s t : Student)
    (store store' : Store)
    (hok : create_student freshId ⟨some s⟩ store = (.ok t, store'))
    (hid : s.id = "" ∨ isBlank s.id = false)
    (hfresh : s.id = "" → isBlank freshId = false) :
    get_student t.id store' = .ok t ∧
    (s.id = "" → t.id = freshId ∧ t.id ≠ "") ∧
    (∀ freshId2 s2 t2 store'',
      create_student freshId2 ⟨some s2⟩ store' = (.ok t2, store'') → t2.id ≠ t.id) := by
  rcases create_student_cases freshId ⟨some s⟩ store with ⟨e, _, heq⟩ | ⟨_, hcase⟩
  · rw [heq] at hok
    simp at hok
  · rcases hcase with ⟨_, heq⟩ | ⟨_, heq⟩
    · rw [heq] at hok
      simp at hok
    · rw [heq] at hok
      simp only [Prod.mk.injEq, Except.ok.injEq] at hok
      obtain ⟨ht, hst⟩ := hok
      have ht' : createdRecord freshId s = t := ht
      have hst' : Store.insert store (createdRecord freshId s).id
          (createdRecord freshId s) = store' := hst
      rw [ht'] at hst'
      have hblank : isBlank t.id = false := by
        by_cases h0 : s.id = ""
        · have htf : t = { s with id := freshId } := by
            rw [← ht']; simp [createdRecord, h0]
          rw [htf]
          exact hfresh h0
        · have hts : t = s := by
            rw [← ht']; simp [createdRecord, h0]
          rw [hts]
          rcases hid with h | h
          · exact absurd h h0
          · exact h
      have hg : Store.get? store' t.id = some t := by
        rw [← hst']
        exact Store.get?_insert_self store t.id t
      refine ⟨by simp [get_student, hblank, hg], ?_, ?_⟩
      · intro h0
        have htf : t = { s with id := freshId } := by
          rw [← ht']; simp [createdRecord, h0]
        have hid2 : t.id = freshId := by rw [htf]
        refine ⟨hid2, ?_⟩
        rw [hid2]
        intro hcon
        have hnb : isBlank freshId = false := hfresh h0
        rw [hcon] at hnb
        exact absurd hnb (by decide)
      · intro fid2 s2 t2 store'' h2
        rcases create_student_cases fid2 ⟨some s2⟩ store' with ⟨e2, _, heq2⟩ | ⟨_, hcase2⟩
        · rw [heq2] at h2
          simp at h2
        · rcases hcase2 with ⟨_, heq2⟩ | ⟨hcf2, heq2⟩
          · rw [heq2] at h2
            simp at h2
          · rw [heq2] at h2
            simp only [Prod.mk.injEq, Except.ok.injEq] at h2
            obtain ⟨ht2, _⟩ := h2
            have hcf2' : Store.contains_key store' t2.id = false := by
              rw [← ht2]
              exact hcf2
            intro hcon
            rw [hcon] at hcf2'
            have hct : Store.contains_key store' t.id = true :=
              (Store.contains_key_true_iff store' t.id).mpr ⟨t, hg⟩
            rw [hct] at hcf2'
            cases hcf2'

/-- C6 witness: creating the empty-id record with generated id `"uuid-1"`
and reading it back. -/
theorem create_then_get_roundtrip_witness :
    get_student "uuid-1" [("uuid-1", { sNoId with id := "uuid-1" })] =
      .ok { sNoId with id := "uuid-1" } ∧
    ("uuid-1" : String) ≠ "" := by
  have h := create_then_get_roundtrip "uuid-1" sNoId { sNoId with id := "uuid-1" }
    [] [("uuid-1", { sNoId with id := "uuid-1" })] (by decide) (Or.inl rfl)
    (fun _ => by decide)
  exact ⟨h.1, (h.2.1 rfl).2⟩
